import Mathlib

/-!
Shallow embedding of the "Circles" serverless family-messaging backend
(lambdas/circles-api-handler.js and lambdas/push-sender.js), together with
proofs about its request handlers: membership-gated authorization, message
creation, the invitation lifecycle, prompt generation, and the push
notification fan-out.

Conventions of the embedding:
* JavaScript values that may be absent are modelled as `Option`.
* JavaScript truthiness on strings (the empty string is falsy) is modelled
  by `truthyStr`; on numbers (zero is falsy) it is modelled explicitly at
  each use site.
* ISO-8601 `createdAt` timestamps are lexicographically ordered strings in
  the source; here they are `Nat` with the usual order.  Epoch-second
  fields (`expiresAt`) are `Int`.
* DynamoDB is modelled as lists of rows; `PutItem` replaces the row with
  the same primary key; `Query` on the messages table filters the
  partition, sorts by the sort key and truncates to the requested limit.
* External effects (SES email, Bedrock invocation, web-push delivery) are
  modelled by explicit input parameters describing their outcome.
-/

namespace Circles

/-- JavaScript truthiness for an optional string: absent and `""` are falsy. -/
def truthyStr : Option String → Option String
  | none => none
  | some s => if s = "" then none else some s

/-- JavaScript `a || b` on optional strings (empty string counts as falsy). -/
def jsOrS (a b : Option String) : Option String :=
  match truthyStr a with
  | some s => some s
  | none => b

/-- JavaScript `a || b` where `a` is a string and `b` the fallback string. -/
def jsOrStr (a b : String) : String :=
  if a = "" then b else a

/-- JavaScript `String.prototype.trim()`, written on the character list so
that concrete instances reduce inside the kernel. -/
def strTrim (s : String) : String :=
  String.mk (((s.data.dropWhile Char.isWhitespace).reverse.dropWhile Char.isWhitespace).reverse)

/-- JavaScript `String.prototype.toLowerCase()` (ASCII case mapping),
written on the character list. -/
def strToLower (s : String) : String := String.mk (s.data.map Char.toLower)

/-- Helper of `splitLines`: accumulate the current line until a newline. -/
def splitLinesAux : List Char → List Char → List String
  | [], acc => [String.mk acc.reverse]
  | c :: rest, acc =>
    if c = '\n' then String.mk acc.reverse :: splitLinesAux rest []
    else splitLinesAux rest (c :: acc)

/-- JavaScript `s.split("\n")`. -/
def splitLines (s : String) : List String := splitLinesAux s.data []

-- -------------------------
-- Identity claims (Cognito JWT), from getUserFromEvent
-- -------------------------

/-- The claims bag attached by the Cognito authorizer.  Only the keys read
by the handler are modelled. -/
structure Claims where
  sub : Option String
  cognitoUsername : Option String
  email : Option String
  name : Option String
  deriving Repr, DecidableEq

/-- Caller identity derived from the claims. -/
structure UserCtx where
  userId : Option String
  author : String
  deriving Repr, DecidableEq

/-- Embedding of `getUserFromEvent`: userId is
`claims.sub || claims["cognito:username"] || claims.email || null`, and the
display author is `claims.name || claims.email || claims["cognito:username"]
|| userId || "unknown"`. -/
def getUserFromEvent (claims : Option Claims) : UserCtx :=
  match claims with
  | none => { userId := none, author := "unknown" }
  | some c =>
    let userId := jsOrS c.sub (jsOrS c.cognitoUsername c.email)
    let author := (jsOrS c.name (jsOrS c.email (jsOrS c.cognitoUsername userId))).getD "unknown"
    { userId := userId, author := author }

-- -------------------------
-- Data model (DynamoDB tables)
-- -------------------------

/-- A row of the messages table (partition key `familyId`, sort key
`createdAt`). -/
structure Message where
  familyId : String
  createdAt : Nat
  author : String
  text : String
  messageId : String
  messageType : String
  questionId : Option String
  deriving Repr, DecidableEq

/-- A row of the CircleMemberships table (key `(userId, circleId)`). -/
structure Membership where
  userId : String
  circleId : String
  role : String
  joinedAt : Nat
  displayName : String
  deriving Repr, DecidableEq

/-- A row of the Circles metadata table (key `circleId`). -/
structure Circle where
  circleId : String
  name : String
  description : String
  tags : List String
  deriving Repr, DecidableEq

/-- A row of the CircleInvitations table (key `invitationId`).  `status`,
`maxUses` and `usesCount` are optional because the handler guards them by
truthiness / `typeof` checks. -/
structure Invitation where
  invitationId : String
  circleId : String
  invitedEmail : String
  role : String
  createdByUserId : String
  createdAt : Nat
  expiresAt : Option Int
  status : Option String
  maxUses : Option Nat
  usesCount : Option Nat
  acceptedByUserId : Option String
  acceptedAt : Option Nat
  deriving Repr, DecidableEq

/-- The document-store state touched by the handlers under proof. -/
structure DB where
  messages : List Message
  memberships : List Membership
  invitations : List Invitation
  circles : List Circle
  deriving Repr, DecidableEq

/-- DynamoDB `PutItem` on the messages table: replace the row with the same
`(familyId, createdAt)` key. -/
def putMessage (l : List Message) (m : Message) : List Message :=
  m :: l.filter (fun x => !(x.familyId = m.familyId && x.createdAt = m.createdAt))

/-- DynamoDB `PutItem` on the memberships table: replace the row with the
same `(userId, circleId)` key (the accept handler's upsert). -/
def putMembership (l : List Membership) (m : Membership) : List Membership :=
  m :: l.filter (fun x => !(x.userId = m.userId && x.circleId = m.circleId))

/-- Embedding of `getUserMembershipCircleIds`: query the memberships
partition of `userId`, map to `circleId`, drop falsy ids. -/
def getUserMembershipCircleIds (db : DB) (userId : String) : List String :=
  ((db.memberships.filter (fun m => m.userId = userId)).map Membership.circleId).filter
    (fun c => c ≠ "")

-- -------------------------
-- HTTP result
-- -------------------------

/-- A handler outcome: either an error response (status code and the body's
`message` field) or a success response carrying a typed body. -/
inductive ApiResult (α : Type) where
  | err (statusCode : Nat) (message : String)
  | ok (statusCode : Nat) (value : α)
  deriving Repr, DecidableEq

-- -------------------------
-- GET /api/circles (list messages)
-- -------------------------

/-- Query-string parameters of GET /api/circles. -/
structure ListQS where
  familyId : Option String
  limit : Option Nat
  deriving Repr, DecidableEq

/-- Effective circle id of GET /api/circles: `qs.familyId || "behrens"`. -/
def qsFamilyId (qs : ListQS) : String :=
  (jsOrS qs.familyId (some "behrens")).getD "behrens"

/-- Descending order on the messages sort key (newest first), as produced
by a DynamoDB query with `ScanIndexForward: false`. -/
def newerFirst (a b : Message) : Prop := b.createdAt ≤ a.createdAt

instance : DecidableRel newerFirst := fun a b => by
  unfold newerFirst; infer_instance

instance : IsTotal Message newerFirst :=
  ⟨fun a b => Nat.le_total b.createdAt a.createdAt⟩

instance : IsTrans Message newerFirst :=
  ⟨fun _ _ _ hab hbc => Nat.le_trans hbc hab⟩

/-- The DynamoDB query issued by the list-messages route: partition
`familyId`, newest first, truncated to `limit` items. -/
def queryMessagesDesc (db : DB) (familyId : String) (limit : Nat) : List Message :=
  ((db.messages.filter (fun m => m.familyId = familyId)).insertionSort newerFirst).take limit

/-- Embedding of the GET /api/circles route of the handler: default the
circle to "behrens", default the limit to 20, require an authenticated
caller, require membership, then run the partition query newest first. -/
def handleListMessages (db : DB) (userId : Option String) (qs : ListQS) :
    ApiResult (List Message) :=
  let familyId := qsFamilyId qs
  let limit := qs.limit.getD 20
  match userId with
  | none => .err 401 "Unauthorized: no userId in token"
  | some uid =>
    if familyId ∈ getUserMembershipCircleIds db uid then
      .ok 200 (queryMessagesDesc db familyId limit)
    else
      .err 403 "Forbidden: user is not a member of this circle"

-- -------------------------
-- POST /api/circles (create message)
-- -------------------------

/-- The parsed JSON body of POST /api/circles on the create-message path.
`author` is the client-supplied author field, which the handler never
reads (the trust boundary under proof in claim C2). -/
structure MsgPayload where
  action : Option String
  familyId : Option String
  text : Option String
  messageType : Option String
  questionId : Option String
  messageId : Option String
  author : Option String
  deriving Repr, DecidableEq

/-- The dispatch test of POST /api/circles:
`payload.action && String(payload.action).trim().toLowerCase()` equal to
"createcircle" selects the circle-creation branch. -/
def isCreateCircleAction (action : Option String) : Bool :=
  match truthyStr action with
  | none => false
  | some s => strToLower (strTrim s) = "createcircle"

/-- Effective circle id of the create-message branch:
`String(payload.familyId || "behrens").trim()`. -/
def effFamilyId (p : MsgPayload) : String :=
  strTrim ((jsOrS p.familyId (some "behrens")).getD "behrens")

/-- Effective text of the create-message branch:
`rawText && String(rawText).trim()`, with `""` for the falsy cases that the
`if (!text)` guard rejects. -/
def effText (p : MsgPayload) : String :=
  ((truthyStr p.text).map strTrim).getD ""

/-- `payload.messageType && String(payload.messageType).trim().toLowerCase()`
compared with "question"; everything else normalizes to "answer". -/
def normMessageType (p : MsgPayload) : String :=
  if (truthyStr p.messageType).map (fun s => strToLower (strTrim s)) = some "question"
  then "question" else "answer"

/-- `payload.questionId && String(payload.questionId).trim() ? ... : null`. -/
def clientQuestionId (p : MsgPayload) : Option String :=
  match (truthyStr p.questionId).map strTrim with
  | some t => if t = "" then none else some t
  | none => none

/-- Client-supplied message id after the same truthiness/trim treatment,
with the generated `msg_${randomUUID()}` as the fallback. -/
def effMessageId (p : MsgPayload) (genId : String) : String :=
  match (truthyStr p.messageId).map strTrim with
  | some t => if t = "" then genId else t
  | none => genId

/-- The message item assembled by the create-message branch (the source's
`item` object: questionId is stored only for non-question messages). -/
def createdItem (p : MsgPayload) (author : String) (now : Nat) (genId : String) : Message :=
  let messageType := normMessageType p
  { familyId := effFamilyId p
    createdAt := now
    author := author
    text := effText p
    messageId := effMessageId p genId
    messageType := messageType
    questionId := if messageType ≠ "question" then clientQuestionId p else none }

/-- Embedding of the create-message branch of POST /api/circles (the code
after the `createcircle` dispatch).  `now` is the ISO timestamp, `genId`
the `msg_${randomUUID()}` value generated for this request. -/
def handleCreateMessage (db : DB) (userId : Option String) (jwtAuthor : String)
    (body : Option (Option MsgPayload)) (now : Nat) (genId : String) :
    ApiResult Message × DB :=
  match body with
  | none => (.err 400 "Request body is required", db)
  | some parsed =>
    match userId with
    | none => (.err 401 "Unauthorized: no userId in token", db)
    | some uid =>
      match parsed with
      | none => (.err 400 "Invalid JSON body", db)
      | some payload =>
        let familyId := effFamilyId payload
        let text := effText payload
        if text = "" then
          (.err 400 "Field \"text\" is required", db)
        else if familyId ∈ getUserMembershipCircleIds db uid then
          -- Author from JWT claims, not the client body
          let item := createdItem payload (jsOrStr jwtAuthor "unknown") now genId
          (.ok 201 item, { db with messages := putMessage db.messages item })
        else
          (.err 403 "Forbidden: user is not a member of this circle", db)

-- -------------------------
-- GET /api/circles/members
-- -------------------------

/-- An entry of the members list returned by GET /api/circles/members. -/
structure MemberView where
  userId : String
  role : String
  displayName : String
  deriving Repr, DecidableEq

/-- Embedding of `handleGetCircleMembers`: accept `familyId` (or the alias
`circleId`) from the query string — `qs.familyId || qs.circleId` followed
by the truthiness guard `if (!circleId)`, so an empty-string parameter
counts as missing — require an authenticated member, then scan the
memberships table filtered on the circle. -/
def handleGetCircleMembers (db : DB) (userId : Option String)
    (familyId circleIdAlias : Option String) : ApiResult (List MemberView) :=
  match userId with
  | none => .err 401 "Unauthorized: no userId in token"
  | some uid =>
    match truthyStr (jsOrS familyId circleIdAlias) with
    | none => .err 400 "Missing required query parameter \"familyId\" (or \"circleId\")"
    | some circleId =>
      if circleId ∈ getUserMembershipCircleIds db uid then
        .ok 200 ((db.memberships.filter (fun m => m.circleId = circleId)).map
          (fun m => { userId := m.userId
                      role := jsOrStr m.role "member"
                      displayName := jsOrStr m.displayName m.userId }))
      else
        .err 403 "Forbidden: user is not a member of this circle"

-- -------------------------
-- POST /api/circles/{circleId}/invitations
-- -------------------------

/-- The parsed JSON body of the create-invitation route. -/
structure InvPayload where
  email : Option String
  role : Option String
  expiresInDays : Option Int
  deriving Repr, DecidableEq

/-- Embedding of `handleCreateInvitation`.  `nowSec` is the current epoch
second, `nowT` the current timestamp for `createdAt`, `genInvId` the
`randomUUID()` for the new invitation.  The conditional put fails (and the
outer catch answers 500) if the generated id already exists; the SES email
send is external and cannot affect the stores or the status code of a
successful creation (errors are swallowed). -/
def handleCreateInvitation (db : DB) (userId : Option String)
    (circleIdPath : Option String) (body : Option (Option InvPayload))
    (nowSec : Int) (nowT : Nat) (genInvId : String) :
    ApiResult Invitation × DB :=
  match userId with
  | none => (.err 401 "Unauthorized: no userId in token", db)
  | some uid =>
    -- `event.pathParameters && event.pathParameters.circleId ? … : null`:
    -- a falsy (absent or empty) path parameter yields null
    match truthyStr circleIdPath with
    | none => (.err 400 "Missing circleId in path", db)
    | some circleId =>
      -- Require caller to already be a member of the circle
      if circleId ∈ getUserMembershipCircleIds db uid then
        match body with
        | none => (.err 400 "Request body is required", db)
        | some none => (.err 400 "Invalid JSON body", db)
        | some (some payload) =>
          match (truthyStr payload.email).map strTrim with
          | none => (.err 400 "Field \"email\" is required", db)
          | some email =>
            let role := (truthyStr payload.role).getD "member"
            let expiresInDays := payload.expiresInDays.getD 7
            let ttlSeconds := nowSec + expiresInDays * 24 * 3600
            let item : Invitation :=
              { invitationId := genInvId
                circleId := circleId
                invitedEmail := email
                role := role
                createdByUserId := uid
                createdAt := nowT
                expiresAt := some ttlSeconds
                status := some "PENDING"
                maxUses := some 1
                usesCount := some 0
                acceptedByUserId := none
                acceptedAt := none }
            if db.invitations.any (fun i => i.invitationId = genInvId) then
              -- ConditionExpression attribute_not_exists(invitationId) throws,
              -- caught by the handler's outer try/catch
              (.err 500 "Internal server error", db)
            else
              (.ok 201 item, { db with invitations := item :: db.invitations })
      else
        (.err 403 "Forbidden: user is not a member of this circle (cannot create invites)", db)

-- -------------------------
-- POST /api/circles/invitations/accept
-- -------------------------

/-- Body of the accept response that the claims need (the joined circle). -/
structure AcceptView where
  circleId : String
  deriving Repr, DecidableEq

/-- The accept route's expiry guard:
`invitation.expiresAt && invitation.expiresAt <= nowSeconds`.  A zero
`expiresAt` is falsy in JavaScript, so it does not trigger the guard. -/
def invitationExpiredNow (expiresAt : Option Int) (nowSec : Int) : Bool :=
  match expiresAt with
  | some e => e != 0 && decide (e ≤ nowSec)
  | none => false

/-- The accept route's state guard:
`invitation.status && invitation.status !== "PENDING"`. -/
def invitationNotPending (status : Option String) : Bool :=
  match truthyStr status with
  | some s => s != "PENDING"
  | none => false

/-- The accept route's use-limit guard: both counters are numbers and
`usesCount >= maxUses`. -/
def invitationUsedUp (maxUses usesCount : Option Nat) : Bool :=
  match maxUses, usesCount with
  | some maxU, some uses => decide (maxU ≤ uses)
  | _, _ => false

/-- `payload.invitationId && String(payload.invitationId).trim()`. -/
def parsedInvitationId (raw : Option String) : Option String :=
  (truthyStr raw).map strTrim

/-- The membership row upserted by a successful acceptance (the source's
`membershipItem`). -/
def acceptedMembership (inv : Invitation) (uid a : String) (nowT : Nat) : Membership :=
  { userId := uid
    circleId := inv.circleId
    role := jsOrStr inv.role "member"
    joinedAt := nowT
    displayName := jsOrStr a uid }

/-- The invitation after the acceptance update: status ACCEPTED, the
acceptor and time recorded, `usesCount = if_not_exists(usesCount, 0) + 1`. -/
def acceptedInvitation (inv : Invitation) (uid : String) (nowT : Nat) : Invitation :=
  { inv with
      status := some "ACCEPTED"
      acceptedByUserId := some uid
      acceptedAt := some nowT
      usesCount := some (inv.usesCount.getD 0 + 1) }

/-- Embedding of `handleAcceptInvitation`.  `invitationIdRaw` is the body's
`invitationId` field (`none` stands for a missing body or unparsable JSON
as well, both of which answer 400 before the field check matters).
`nowSec` is the epoch second used for the expiry check, `nowT` the
timestamp stored in `joinedAt`/`acceptedAt`.  The email-match between
`invitedEmail` and the caller's email claim is only logged by the source
and therefore does not appear in the state transition. -/
def handleAcceptInvitation (db : DB) (userId : Option String) (jwtAuthor : String)
    (invitationIdRaw : Option String) (nowSec : Int) (nowT : Nat) :
    ApiResult AcceptView × DB :=
  match userId with
  | none => (.err 401 "Unauthorized: no userId in token", db)
  | some uid =>
    match parsedInvitationId invitationIdRaw with
    | none => (.err 400 "Field \"invitationId\" is required", db)
    | some invitationId =>
      if invitationId = "" then (.err 400 "Field \"invitationId\" is required", db)
      else
        match db.invitations.find? (fun i => i.invitationId = invitationId) with
        | none => (.err 404 "Invitation not found", db)
        | some invitation =>
          -- `invitation.expiresAt && invitation.expiresAt <= nowSeconds`
          if invitationExpiredNow invitation.expiresAt nowSec then
            (.err 410 "Invitation has expired", db)
          -- `invitation.status && invitation.status !== "PENDING"`
          else if invitationNotPending invitation.status then
            (.err 400 "Invitation is no longer pending", db)
          -- both counters numbers and usesCount >= maxUses
          else if invitationUsedUp invitation.maxUses invitation.usesCount then
            (.err 400 "Invitation has already been used", db)
          else if invitation.circleId = "" then
            (.err 500 "Invitation is invalid (missing circleId)", db)
          else
            let membershipItem := acceptedMembership invitation uid jwtAuthor nowT
            let updated := acceptedInvitation invitation uid nowT
            let db1 : DB :=
              { db with
                  memberships := putMembership db.memberships membershipItem
                  invitations := db.invitations.map
                    (fun i => if i.invitationId = invitationId then updated else i) }
            (.ok 200 { circleId := invitation.circleId }, db1)

-- -------------------------
-- POST /api/prompts (handleGeneratePrompts)
-- -------------------------

/-- The parsed JSON body of POST /api/prompts (an unparsable body is the
payload with every field absent, because the source falls back to
defaults on a JSON error). -/
structure PromptsPayload where
  familyId : Option String
  circleId : Option String
  count : Option Int
  deriving Repr, DecidableEq

/-- `Math.min(Math.max(countRaw || 4, 1), 8)` where
`countRaw = Number(payload.count || 4)`: absent and zero fall back to the
default 4, then the value is clamped into [1, 8]. -/
def clampPromptCount (count : Option Int) : Int :=
  let countRaw : Int :=
    match count with
    | none => 4
    | some c => if c = 0 then 4 else c
  min (max countRaw 1) 8

/-- A JSON value inside the array returned by the completion model; only
stringness matters to the handler. -/
inductive JVal where
  | jstr (s : String)
  | jother
  deriving Repr, DecidableEq

/-- Outcome of `JSON.parse` on the completion text: an array, or some
non-array JSON value. -/
inductive ParsedText where
  | arr (vs : List JVal)
  | notArr
  deriving Repr, DecidableEq

/-- Outcome of the Bedrock invocation as seen by the handler:
invocation error; a response body that is not JSON; a response with empty
(or missing) text content; or a non-empty trimmed text block together
with the result of `JSON.parse` on it (`none` = parse exception). -/
inductive BedrockOutcome where
  | invokeError (message : String)
  | badResponseJson
  | emptyText
  | content (textBlock : String) (parsed : Option ParsedText)
  deriving Repr, DecidableEq

/-- `line.replace(/^[-*]\s*/, "")`: strip one leading bullet marker and the
whitespace that follows it. -/
def stripBullet (line : String) : String :=
  match line.toList with
  | c :: rest =>
    if c = '-' ∨ c = '*' then String.mk (rest.dropWhile Char.isWhitespace) else line
  | [] => line

/-- The two parse strategies of `handleGeneratePrompts`: keep the trimmed
string elements of a JSON array, else (on a parse exception) split the
text on newlines, strip bullets, trim, and keep non-empty lines.  A JSON
value that parses but is not an array yields no prompts. -/
def extractPrompts (parsed : Option ParsedText) (textBlock : String) : List String :=
  match parsed with
  | some (.arr vs) =>
    (vs.map (fun v => match v with | .jstr s => strTrim s | .jother => "")).filter (fun s => s ≠ "")
  | some .notArr => []
  | none =>
    ((splitLines textBlock).map (fun line => strTrim (stripBullet line))).filter
      (fun s => s ≠ "")

/-- Embedding of `handleGeneratePrompts`: authentication, the optional
membership check on `familyId || circleId`, the count clamp, and the
parse / fallback / truncate pipeline on the completion text. -/
def handleGeneratePrompts (db : DB) (userId : Option String)
    (payload : PromptsPayload) (bedrock : BedrockOutcome) :
    ApiResult (List String) :=
  match userId with
  | none => .err 401 "Unauthorized: no userId in token"
  | some uid =>
    -- `payload.familyId || payload.circleId || null`: an empty-string id is
    -- falsy and resolves to null, and `if (circleId && …)` then skips the
    -- membership check
    let circleId := truthyStr (jsOrS payload.familyId payload.circleId)
    let forbidden :=
      match circleId with
      | some c => decide (c ∉ getUserMembershipCircleIds db uid)
      | none => false
    if forbidden then
      .err 403 "Forbidden: user is not a member of this circle"
    else
      let count := clampPromptCount payload.count
      match bedrock with
      | .invokeError _ => .err 502 "Error invoking Bedrock"
      | .badResponseJson => .err 502 "Failed to parse Bedrock response"
      | .emptyText => .err 502 "Empty response from Bedrock"
      | .content textBlock parsed =>
        if textBlock = "" then .err 502 "Empty response from Bedrock"
        else
          let prompts := extractPrompts parsed textBlock
          if prompts.isEmpty then .err 502 "No prompts generated"
          else .ok 200 (prompts.take count.toNat)

-- -------------------------
-- Push sender (lambdas/push-sender.js)
-- -------------------------

/-- A queued push event (transient; produced on message creation and
consumed by the fan-out worker). -/
structure PushEvent where
  type : String
  circleId : String
  circleName : String
  questionId : Option String
  answerId : Option String
  preview : String
  actorUserId : String
  deriving Repr, DecidableEq

/-- Modelled from the spec: the copy of circles-api-handler.js in the
repository stops at the DynamoDB put of the new message, while the deployed
producer of push events is referenced only indirectly — the CDK stack sets
`PUSH_EVENTS_QUEUE_URL` on the API lambda and grants it
`pushEventsQueue.grantSendMessages`, the README documents "A NEW_QUESTION
or NEW_ANSWER event is emitted into SQS" with the fan-out event shape, and
push-sender.js consumes those events.  Per the spec's create-message
contract ("persists; emits a PushEvent of type NEW_QUESTION or NEW_ANSWER
to the queue") and the PushEvent data model, the event built for a freshly
stored message carries the event type matching the message's type, the
circle, the question/answer ids and a preview, with the poster as actor. -/
def pushEventForMessage (db : DB) (item : Message) (actorUserId : String) : PushEvent :=
  let circleName :=
    ((db.circles.find? (fun c => c.circleId = item.familyId)).map Circle.name).getD
      item.familyId
  if item.messageType = "question" then
    { type := "NEW_QUESTION"
      circleId := item.familyId
      circleName := circleName
      questionId := some item.messageId
      answerId := none
      preview := item.text
      actorUserId := actorUserId }
  else
    { type := "NEW_ANSWER"
      circleId := item.familyId
      circleName := circleName
      questionId := item.questionId
      answerId := some item.messageId
      preview := item.text
      actorUserId := actorUserId }

/-- Modelled from the spec: the create-message operation followed by the
queue emission that the in-repo handler copy lacks (see
`pushEventForMessage`).  On a successful write the event is appended to
the push-events queue; on any failure the queue is untouched. -/
def handleCreateMessageWithPush (db : DB) (queue : List PushEvent)
    (userId : Option String) (jwtAuthor : String)
    (body : Option (Option MsgPayload)) (now : Nat) (genId : String) :
    ApiResult Message × DB × List PushEvent :=
  let r := handleCreateMessage db userId jwtAuthor body now genId
  match r.1 with
  | .ok _ item => (r.1, r.2, queue ++ [pushEventForMessage db item (userId.getD "")])
  | .err _ _ => (r.1, r.2, queue)

-- -------------------------
-- Concrete fixtures (used by witnesses and counterexamples)
-- -------------------------

/-- A fixture membership: user u1 owns circle c1. -/
def memW : Membership :=
  { userId := "u1", circleId := "c1", role := "owner", joinedAt := 0, displayName := "Una" }

/-- A fixture database: one membership, nothing else. -/
def dbW : DB := { messages := [], memberships := [memW], invitations := [], circles := [] }

/-- A fixture create-message payload (client also smuggles an author). -/
def pW : MsgPayload :=
  { action := none
    familyId := some "c1"
    text := some " hi "
    messageType := some " Question"
    questionId := none
    messageId := none
    author := some "EVE" }

/-- The item the handler stores for `pW` posted by u1 as "Alice" at time 5. -/
def itemW : Message :=
  { familyId := "c1", createdAt := 5, author := "Alice", text := "hi"
    messageId := "msg_x", messageType := "question", questionId := none }

/-- The database after storing `itemW` in `dbW`. -/
def dbW2 : DB := { dbW with messages := [itemW] }

/-- A fixture pending invitation into circle c1, expiring at epoch 1000. -/
def invW : Invitation :=
  { invitationId := "i1"
    circleId := "c1"
    invitedEmail := "bob@example.com"
    role := "member"
    createdByUserId := "u1"
    createdAt := 0
    expiresAt := some 1000
    status := some "PENDING"
    maxUses := some 1
    usesCount := some 0
    acceptedByUserId := none
    acceptedAt := none }

/-- A fixture database holding only `invW`. -/
def dbInvW : DB := { messages := [], memberships := [], invitations := [invW], circles := [] }

/-- `invW` with the JavaScript-falsy expiry value 0. -/
def invW0 : Invitation := { invW with expiresAt := some 0 }

/-- A fixture database holding only `invW0`. -/
def dbInvW0 : DB := { messages := [], memberships := [], invitations := [invW0], circles := [] }

/-- 25 messages in circle c1 with creation times 0..24. -/
def msgs25 : List Message :=
  (List.range 25).map fun i =>
    { familyId := "c1", createdAt := i, author := "a", text := "t"
      messageId := "m", messageType := "answer", questionId := none }

/-- A fixture database with 25 messages in c1 and u1 a member. -/
def dbMsgs25 : DB :=
  { messages := msgs25, memberships := [memW], invitations := [], circles := [] }

/-- Number of items of a successful list response (0 on an error). -/
def okLength (r : ApiResult (List Message)) : Nat :=
  match r with
  | .ok _ l => l.length
  | .err _ _ => 0

/-- C10: a GET or POST request to /api/circles with a missing or empty
familyId is not rejected; the handler substitutes the fixed circle id
"behrens" — the request behaves exactly like one that asked for circle
"behrens", for the membership check and for the message read or write
alike. -/
theorem claim_C10_default_family_behrens :
    (∀ (db : DB) (userId : Option String) (limit : Option Nat),
      handleListMessages db userId { familyId := none, limit := limit }
        = handleListMessages db userId { familyId := some "behrens", limit := limit } ∧
      handleListMessages db userId { familyId := some "", limit := limit }
        = handleListMessages db userId { familyId := some "behrens", limit := limit }) ∧
    (∀ (db : DB) (userId : Option String) (a : String) (p : MsgPayload)
        (now : Nat) (gid : String),
      handleCreateMessage db userId a (some (some { p with familyId := none })) now gid
        = handleCreateMessage db userId a
            (some (some { p with familyId := some "behrens" })) now gid ∧
      handleCreateMessage db userId a (some (some { p with familyId := some "" })) now gid
        = handleCreateMessage db userId a
            (some (some { p with familyId := some "behrens" })) now gid) ∧
    (∀ limit, qsFamilyId { familyId := none, limit := limit } = "behrens") ∧
    (∀ p : MsgPayload, effFamilyId { p with familyId := none } = "behrens") := by
  refine ⟨fun db userId limit => ⟨rfl, rfl⟩,
    fun db userId a p now gid => ⟨rfl, rfl⟩, fun limit => rfl, fun p => rfl⟩

/-- C2: the author stored with a created message is derived solely from the
caller's identity claims: the handler output (response and store state) is
invariant under any change of the client-supplied author field, and on
success the stored author is the JWT-derived author (with the "unknown"
fallback). -/
theorem claim_C2_author_trust_boundary
    (db : DB) (uid a : String) (p : MsgPayload) (now : Nat) (gid : String)
    (item : Message) (db2 : DB) (a1 a2 : Option String)
    (h : handleCreateMessage db (some uid) a (some (some p)) now gid = (.ok 201 item, db2)) :
    item.author = jsOrStr a "unknown" ∧
    handleCreateMessage db (some uid) a (some (some { p with author := a1 })) now gid
      = handleCreateMessage db (some uid) a (some (some { p with author := a2 })) now gid := by
  refine ⟨?_, rfl⟩
  simp only [handleCreateMessage] at h
  split at h
  · exact absurd h (by simp)
  · split at h
    · simp only [Prod.mk.injEq, ApiResult.ok.injEq] at h
      obtain ⟨⟨-, hitem⟩, -⟩ := h
      exact hitem ▸ rfl
    · exact absurd h (by simp)

/-- C2 witness at a concrete input: u1 posts `pW` as "Alice". -/
theorem claim_C2_author_trust_boundary_witness :
    itemW.author = jsOrStr "Alice" "unknown" ∧
    handleCreateMessage dbW (some "u1") "Alice"
        (some (some { pW with author := some "MALLORY" })) 5 "msg_x"
      = handleCreateMessage dbW (some "u1") "Alice"
          (some (some { pW with author := none })) 5 "msg_x" :=
  claim_C2_author_trust_boundary dbW "u1" "Alice" pW 5 "msg_x" itemW dbW2
    (some "MALLORY") none (by decide)

-- Helper lemmas about the create-message field normalizations

theorem normMessageType_eq_question_iff (p : MsgPayload) :
    normMessageType p = "question" ↔
      ∃ s, p.messageType = some s ∧ strToLower (strTrim s) = "question" := by
  cases hmt : p.messageType with
  | none => simp [normMessageType, truthyStr, hmt]
  | some s =>
    by_cases hs : s = ""
    · subst hs
      simp [normMessageType, truthyStr, hmt]
      decide
    · by_cases hq : strToLower (strTrim s) = "question" <;>
        simp [normMessageType, truthyStr, hmt, hs, hq]

theorem normMessageType_question_or_answer (p : MsgPayload) :
    normMessageType p = "question" ∨ normMessageType p = "answer" := by
  unfold normMessageType
  split <;> simp

theorem clientQuestionId_eq_some (p : MsgPayload) (q : String)
    (h : clientQuestionId p = some q) :
    ∃ s, p.questionId = some s ∧ strTrim s = q ∧ q ≠ "" := by
  cases hq : p.questionId with
  | none => simp [clientQuestionId, truthyStr, hq] at h
  | some s =>
    by_cases hs : s = ""
    · simp [clientQuestionId, truthyStr, hq, hs] at h
    · simp only [clientQuestionId, truthyStr, hq, hs, if_false, Option.map_some] at h
      split at h
      · rename_i t heq
        have htt : t = strTrim s := by simpa using heq.symm
        subst htt
        split at h
        · exact absurd h (by simp)
        · rename_i ht
          rw [Option.some.injEq] at h
          exact ⟨s, rfl, h, h ▸ ht⟩
      · rename_i heq
        exact absurd heq (by simp)

theorem clientQuestionId_of_none (p : MsgPayload) (h : p.questionId = none) :
    clientQuestionId p = none := by
  simp [clientQuestionId, truthyStr, h]

/-- Inversion of a successful create-message call: the stored item is the
normalized one, the new state appends it, and the request passed the text
and membership guards. -/
theorem createMessage_ok_inv (db : DB) (uid a : String) (p : MsgPayload) (now : Nat)
    (gid : String) (item : Message) (db2 : DB)
    (h : handleCreateMessage db (some uid) a (some (some p)) now gid = (.ok 201 item, db2)) :
    item = createdItem p (jsOrStr a "unknown") now gid ∧
    db2 = { db with messages := putMessage db.messages item } ∧
    effText p ≠ "" ∧ effFamilyId p ∈ getUserMembershipCircleIds db uid := by
  simp only [handleCreateMessage] at h
  split at h
  · exact absurd h (by simp)
  · rename_i htext
    split at h
    · rename_i hmem
      simp only [Prod.mk.injEq, ApiResult.ok.injEq] at h
      obtain ⟨⟨-, hi⟩, hdb⟩ := h
      subst hi
      exact ⟨rfl, hdb.symm, htext, hmem⟩
    · exact absurd h (by simp)

/-- A create-message request that passes the text and membership guards
succeeds and stores the normalized item. -/
theorem createMessage_ok_of (db : DB) (uid a : String) (p : MsgPayload) (now : Nat)
    (gid : String) (htext : effText p ≠ "")
    (hmem : effFamilyId p ∈ getUserMembershipCircleIds db uid) :
    handleCreateMessage db (some uid) a (some (some p)) now gid
      = (.ok 201 (createdItem p (jsOrStr a "unknown") now gid),
         { db with messages :=
            putMessage db.messages (createdItem p (jsOrStr a "unknown") now gid) }) := by
  simp only [handleCreateMessage]
  rw [if_neg htext, if_pos hmem]

/-- C7: the stored messageType is "question" exactly when the trimmed,
lowercased client messageType equals "question"; a questionId is stored
only on answers from a non-empty client questionId; and an answer without
a questionId is accepted and stored with none. -/
theorem claim_C7_messageType_questionId
    (db : DB) (uid a : String) (p : MsgPayload) (now : Nat) (gid : String)
    (item : Message) (db2 : DB)
    (h : handleCreateMessage db (some uid) a (some (some p)) now gid = (.ok 201 item, db2)) :
    (item.messageType = "question" ↔
      ∃ s, p.messageType = some s ∧ strToLower (strTrim s) = "question") ∧
    (∀ q, item.questionId = some q →
      item.messageType = "answer" ∧ ∃ s, p.questionId = some s ∧ strTrim s = q ∧ q ≠ "") ∧
    (p.questionId = none → item.questionId = none) ∧
    (∀ p2 : MsgPayload, effText p2 ≠ "" →
      effFamilyId p2 ∈ getUserMembershipCircleIds db uid → p2.questionId = none →
      ∃ item2, handleCreateMessage db (some uid) a (some (some p2)) now gid
          = (.ok 201 item2, { db with messages := putMessage db.messages item2 }) ∧
        item2.questionId = none) := by
  obtain ⟨hi, -, -, -⟩ := createMessage_ok_inv db uid a p now gid item db2 h
  subst hi
  refine ⟨?_, ?_, ?_, ?_⟩
  · simpa [createdItem] using normMessageType_eq_question_iff p
  · intro q hq
    simp only [createdItem] at hq ⊢
    split at hq
    · rename_i hnq
      rcases normMessageType_question_or_answer p with hn | hn
      · exact absurd hn hnq
      · exact ⟨hn, clientQuestionId_eq_some p q hq⟩
    · simp at hq
  · intro hq
    simp [createdItem, clientQuestionId_of_none p hq]
  · intro p2 ht hm hq
    exact ⟨createdItem p2 (jsOrStr a "unknown") now gid,
      createMessage_ok_of db uid a p2 now gid ht hm,
      by simp [createdItem, clientQuestionId_of_none p2 hq]⟩

/-- C7 witness at a concrete input: `pW` (messageType " Question",
no questionId) posted by u1. -/
theorem claim_C7_messageType_questionId_witness :
    (itemW.messageType = "question" ↔
      ∃ s, pW.messageType = some s ∧ strToLower (strTrim s) = "question") ∧
    (∀ q, itemW.questionId = some q →
      itemW.messageType = "answer" ∧ ∃ s, pW.questionId = some s ∧ strTrim s = q ∧ q ≠ "") ∧
    (pW.questionId = none → itemW.questionId = none) ∧
    (∀ p2 : MsgPayload, effText p2 ≠ "" →
      effFamilyId p2 ∈ getUserMembershipCircleIds dbW "u1" → p2.questionId = none →
      ∃ item2, handleCreateMessage dbW (some "u1") "Alice" (some (some p2)) 5 "msg_x"
          = (.ok 201 item2, { dbW with messages := putMessage dbW.messages item2 }) ∧
        item2.questionId = none) :=
  claim_C7_messageType_questionId dbW "u1" "Alice" pW 5 "msg_x" itemW dbW2 (by decide)

/-- C1 counterexample to the claim as stated: an authenticated caller (u1)
who is not a member of circle "zzz" sends a create-message request for
"zzz" with no text; the handler answers 400 (the text validation), not the
claimed 403 — though it still writes nothing. -/
theorem claim_C1_counterexample :
    handleCreateMessage dbW (some "u1") "Alice"
        (some (some { pW with familyId := some "zzz", text := none })) 5 "msg_x"
      = (.err 400 "Field \"text\" is required", dbW) ∧
    "zzz" ∉ getUserMembershipCircleIds dbW "u1" := by decide

/-- C1 (amended): an authenticated caller whose membership set lacks the
requested circleId gets 403 from every circle-scoped route — provided the
request actually carried the circle id in the JavaScript sense (the
resolved id is truthy: present and non-empty) and, for the create-message
route, passed the preceding body/text validation — and in no case is
anything written to the message, invitation, or membership stores (the
list/members/prompts routes issue no writes at all, and the two writing
routes return the state unchanged). -/
theorem claim_C1_forbidden_non_member (db : DB) (uid : String) :
    (∀ qs : ListQS, qsFamilyId qs ∉ getUserMembershipCircleIds db uid →
      handleListMessages db (some uid) qs
        = .err 403 "Forbidden: user is not a member of this circle") ∧
    (∀ (fid cidAlias : Option String) (c : String),
      truthyStr (jsOrS fid cidAlias) = some c →
      c ∉ getUserMembershipCircleIds db uid →
      handleGetCircleMembers db (some uid) fid cidAlias
        = .err 403 "Forbidden: user is not a member of this circle") ∧
    (∀ (cidPath : Option String) (c : String) (body : Option (Option InvPayload))
        (nowSec : Int) (nowT : Nat) (gid : String),
      truthyStr cidPath = some c →
      c ∉ getUserMembershipCircleIds db uid →
      handleCreateInvitation db (some uid) cidPath body nowSec nowT gid
        = (.err 403 "Forbidden: user is not a member of this circle (cannot create invites)",
           db)) ∧
    (∀ (pp : PromptsPayload) (c : String) (bedrock : BedrockOutcome),
      truthyStr (jsOrS pp.familyId pp.circleId) = some c →
      c ∉ getUserMembershipCircleIds db uid →
      handleGeneratePrompts db (some uid) pp bedrock
        = .err 403 "Forbidden: user is not a member of this circle") ∧
    (∀ (a : String) (p : MsgPayload) (now : Nat) (gid : String),
      effText p ≠ "" → effFamilyId p ∉ getUserMembershipCircleIds db uid →
      handleCreateMessage db (some uid) a (some (some p)) now gid
        = (.err 403 "Forbidden: user is not a member of this circle", db)) ∧
    (∀ (a : String) (p : MsgPayload) (now : Nat) (gid : String),
      effFamilyId p ∉ getUserMembershipCircleIds db uid →
      (handleCreateMessage db (some uid) a (some (some p)) now gid).2 = db) := by
  refine ⟨?_, ?_, ?_, ?_, ?_, ?_⟩
  · intro qs hmem
    simp only [handleListMessages]
    rw [if_neg hmem]
  · intro fid cidAlias c heq hmem
    simp only [handleGetCircleMembers, heq]
    rw [if_neg hmem]
  · intro cidPath c body nowSec nowT gid heq hmem
    simp only [handleCreateInvitation, heq]
    rw [if_neg hmem]
  · intro pp c bedrock heq hmem
    simp only [handleGeneratePrompts, heq]
    rw [if_pos (decide_eq_true hmem)]
  · intro a p now gid htext hmem
    simp only [handleCreateMessage]
    rw [if_neg htext, if_neg hmem]
  · intro a p now gid hmem
    simp only [handleCreateMessage]
    split
    · rfl
    · rfl

/-- C1 witness at a concrete input: u1 (member only of c1) targets circle
"zzz" on each route. -/
theorem claim_C1_forbidden_non_member_witness :
    (qsFamilyId { familyId := some "zzz", limit := none }
        ∉ getUserMembershipCircleIds dbW "u1" ∧
      handleListMessages dbW (some "u1") { familyId := some "zzz", limit := none }
        = .err 403 "Forbidden: user is not a member of this circle") ∧
    handleGetCircleMembers dbW (some "u1") (some "zzz") none
      = .err 403 "Forbidden: user is not a member of this circle" ∧
    handleCreateInvitation dbW (some "u1") (some "zzz") none 0 0 "i9"
      = (.err 403 "Forbidden: user is not a member of this circle (cannot create invites)",
         dbW) ∧
    handleGeneratePrompts dbW (some "u1")
        { familyId := some "zzz", circleId := none, count := none } .emptyText
      = .err 403 "Forbidden: user is not a member of this circle" ∧
    handleCreateMessage dbW (some "u1") "Alice"
        (some (some { pW with familyId := some "zzz" })) 5 "msg_x"
      = (.err 403 "Forbidden: user is not a member of this circle", dbW) := by
  have hmem : "zzz" ∉ getUserMembershipCircleIds dbW "u1" := by decide
  obtain ⟨h1, h2, h3, h4, h5, -⟩ := claim_C1_forbidden_non_member dbW "u1"
  refine ⟨⟨hmem, h1 _ (by decide)⟩, h2 (some "zzz") none "zzz" (by decide) hmem,
    h3 (some "zzz") "zzz" none 0 0 "i9" (by decide) hmem,
    h4 _ "zzz" .emptyText (by decide) hmem,
    h5 "Alice" _ 5 "msg_x" (by decide) (by decide)⟩

-- Helper lemmas about invitation acceptance

theorem parsedInvitationId_some (id : String) (hne : id ≠ "") (hid : strTrim id = id) :
    parsedInvitationId (some id) = some id := by
  simp [parsedInvitationId, truthyStr, hne, hid]

/-- After updating the row with key `id`, a key lookup returns the update. -/
theorem find_map_update (l : List Invitation) (id : String) (upd : Invitation)
    (hupd : upd.invitationId = id) (inv : Invitation)
    (h : l.find? (fun i => i.invitationId = id) = some inv) :
    (l.map (fun i => if i.invitationId = id then upd else i)).find?
      (fun i => i.invitationId = id) = some upd := by
  induction l with
  | nil => simp at h
  | cons a t ih =>
    by_cases ha : a.invitationId = id
    · simp [List.find?, ha, hupd]
    · rw [List.find?_cons_of_neg _ (by simp [ha])] at h
      simp only [List.map_cons]
      rw [if_neg ha, List.find?_cons_of_neg _ (by simp [ha])]
      exact ih h

/-- A successful acceptance: the membership upsert and the invitation
update both happen, and the joined circle is returned. -/
theorem acceptInvitation_ok (db : DB) (uid a id : String) (nowSec : Int)
    (nowT : Nat) (inv : Invitation)
    (hne : id ≠ "") (hid : strTrim id = id)
    (hfind : db.invitations.find? (fun i => i.invitationId = id) = some inv)
    (hexp : invitationExpiredNow inv.expiresAt nowSec = false)
    (hpend : invitationNotPending inv.status = false)
    (hused : invitationUsedUp inv.maxUses inv.usesCount = false)
    (hcid : inv.circleId ≠ "") :
    handleAcceptInvitation db (some uid) a (some id) nowSec nowT
      = (.ok 200 { circleId := inv.circleId },
         { db with
             memberships := putMembership db.memberships (acceptedMembership inv uid a nowT)
             invitations := db.invitations.map
               (fun i => if i.invitationId = id then acceptedInvitation inv uid nowT
                 else i) }) := by
  simp only [handleAcceptInvitation, parsedInvitationId_some id hne hid, hfind, hexp, hpend,
    hused]
  rw [if_neg hne]
  simp [hcid]

/-- C3 (amended): after a successful acceptance has set the invitation's
status to ACCEPTED (and usesCount to maxUses), accepting the same
invitationId again (while not expired) fails — but with the InvalidState
message "Invitation is no longer pending" (400), because the status guard
fires before the use-limit guard; no membership row is written by the
second call. -/
theorem claim_C3_second_accept_rejected (db : DB) (uid a uid2 a2 id : String)
    (nowSec nowSec2 : Int) (nowT nowT2 : Nat) (inv : Invitation)
    (hne : id ≠ "") (hid : strTrim id = id)
    (hfind : db.invitations.find? (fun i => i.invitationId = id) = some inv)
    (hexp : invitationExpiredNow inv.expiresAt nowSec = false)
    (hpend : invitationNotPending inv.status = false)
    (hused : invitationUsedUp inv.maxUses inv.usesCount = false)
    (hcid : inv.circleId ≠ "")
    (hexp2 : invitationExpiredNow inv.expiresAt nowSec2 = false) :
    (handleAcceptInvitation db (some uid) a (some id) nowSec nowT).1
      = .ok 200 { circleId := inv.circleId } ∧
    handleAcceptInvitation
        (handleAcceptInvitation db (some uid) a (some id) nowSec nowT).2
        (some uid2) a2 (some id) nowSec2 nowT2
      = (.err 400 "Invitation is no longer pending",
         (handleAcceptInvitation db (some uid) a (some id) nowSec nowT).2) := by
  have h1 := acceptInvitation_ok db uid a id nowSec nowT inv hne hid hfind hexp hpend hused hcid
  have hinvid : inv.invitationId = id := by
    have := List.find?_some hfind
    simpa using this
  refine ⟨by rw [h1], ?_⟩
  rw [h1]
  have hfind2 := find_map_update db.invitations id (acceptedInvitation inv uid nowT)
    (by simp [acceptedInvitation, hinvid]) inv hfind
  simp only [handleAcceptInvitation, parsedInvitationId_some id hne hid, hfind2]
  rw [if_neg hne]
  have hexpU : invitationExpiredNow (acceptedInvitation inv uid nowT).expiresAt nowSec2
      = false := hexp2
  have hpendU : invitationNotPending (acceptedInvitation inv uid nowT).status = true := rfl
  rw [hexpU, hpendU]
  simp

/-- C3 counterexample to the claim as stated: accepting `invW` twice; the
second call is rejected and writes nothing, but its error message is the
InvalidState "Invitation is no longer pending", not the "already used"
message the code reserves for the use-limit guard — even though the first
acceptance brought usesCount (1) up to maxUses (1). -/
theorem claim_C3_counterexample :
    (handleAcceptInvitation dbInvW (some "bob") "Bob" (some "i1") 100 7).1
      = .ok 200 { circleId := "c1" } ∧
    (handleAcceptInvitation dbInvW (some "bob") "Bob" (some "i1") 100 7).2.invitations
      = [acceptedInvitation invW "bob" 7] ∧
    (acceptedInvitation invW "bob" 7).status = some "ACCEPTED" ∧
    (acceptedInvitation invW "bob" 7).usesCount = invW.maxUses ∧
    (handleAcceptInvitation
        (handleAcceptInvitation dbInvW (some "bob") "Bob" (some "i1") 100 7).2
        (some "bob") "Bob" (some "i1") 101 8).1
      = .err 400 "Invitation is no longer pending" ∧
    (handleAcceptInvitation
        (handleAcceptInvitation dbInvW (some "bob") "Bob" (some "i1") 100 7).2
        (some "bob") "Bob" (some "i1") 101 8).1
      ≠ .err 400 "Invitation has already been used" ∧
    (handleAcceptInvitation
        (handleAcceptInvitation dbInvW (some "bob") "Bob" (some "i1") 100 7).2
        (some "bob") "Bob" (some "i1") 101 8).2
      = (handleAcceptInvitation dbInvW (some "bob") "Bob" (some "i1") 100 7).2 := by
  decide

/-- C3 witness at a concrete input: the fixture invitation accepted twice. -/
theorem claim_C3_second_accept_rejected_witness :
    (handleAcceptInvitation dbInvW (some "bob") "Bob" (some "i1") 100 7).1
      = .ok 200 { circleId := invW.circleId } ∧
    handleAcceptInvitation
        (handleAcceptInvitation dbInvW (some "bob") "Bob" (some "i1") 100 7).2
        (some "carol") "Carol" (some "i1") 101 8
      = (.err 400 "Invitation is no longer pending",
         (handleAcceptInvitation dbInvW (some "bob") "Bob" (some "i1") 100 7).2) :=
  claim_C3_second_accept_rejected dbInvW "bob" "Bob" "carol" "Carol" "i1" 100 101 7 8 invW
    (by decide) (by decide) (by decide) (by decide) (by decide) (by decide) (by decide)
    (by decide)

/-- C4 (amended): accepting an invitation whose `expiresAt` is present,
nonzero, and at most the current epoch second fails 410 Gone — even when
`usesCount` is below `maxUses` — and writes nothing.  (The nonzero proviso
exists because the source guards the check with JavaScript truthiness,
under which a zero `expiresAt` is skipped.) -/
theorem claim_C4_expired_gone (db : DB) (uid a id : String) (nowSec : Int)
    (nowT : Nat) (inv : Invitation) (e : Int)
    (hne : id ≠ "") (hid : strTrim id = id)
    (hfind : db.invitations.find? (fun i => i.invitationId = id) = some inv)
    (he : inv.expiresAt = some e) (h0 : e ≠ 0) (hle : e ≤ nowSec) :
    handleAcceptInvitation db (some uid) a (some id) nowSec nowT
      = (.err 410 "Invitation has expired", db) := by
  have hexp : invitationExpiredNow inv.expiresAt nowSec = true := by
    simp [invitationExpiredNow, he, h0, hle]
  simp only [handleAcceptInvitation, parsedInvitationId_some id hne hid, hfind, hexp]
  rw [if_neg hne]
  simp

/-- C4 witness at a concrete input: `invW` (expires at 1000, usesCount 0 <
maxUses 1) accepted at epoch 2000. -/
theorem claim_C4_expired_gone_witness :
    handleAcceptInvitation dbInvW (some "bob") "Bob" (some "i1") 2000 7
      = (.err 410 "Invitation has expired", dbInvW) :=
  claim_C4_expired_gone dbInvW "bob" "Bob" "i1" 2000 7 invW 1000
    (by decide) (by decide) (by decide) (by decide) (by decide) (by decide)

/-- C4 counterexample to the claim as stated: `invW0` has `expiresAt = 0`,
which is ≤ the current time 100, yet acceptance succeeds and writes the
membership row, because `0` is falsy in JavaScript and the expiry guard
`invitation.expiresAt && invitation.expiresAt <= nowSeconds` is skipped. -/
theorem claim_C4_counterexample :
    invW0.expiresAt = some 0 ∧ ((0 : Int) ≤ 100) ∧
    (handleAcceptInvitation dbInvW0 (some "bob") "Bob" (some "i1") 100 7).1
      = .ok 200 { circleId := "c1" } ∧
    (handleAcceptInvitation dbInvW0 (some "bob") "Bob" (some "i1") 100 7).2.memberships
      = [{ userId := "bob", circleId := "c1", role := "member", joinedAt := 7,
           displayName := "Bob" }] := by
  decide

/-- C5: every successful create-message operation appends to the queue a
push event whose type is NEW_QUESTION for questions and NEW_ANSWER for
answers, with the poster as actor and the message's circle as target
(proved over the spec-modelled emission, see `handleCreateMessageWithPush`). -/
theorem claim_C5_push_event_emitted (db : DB) (queue : List PushEvent) (uid a : String)
    (body : Option (Option MsgPayload)) (now : Nat) (gid : String)
    (item : Message) (db2 : DB)
    (h : handleCreateMessage db (some uid) a body now gid = (.ok 201 item, db2)) :
    handleCreateMessageWithPush db queue (some uid) a body now gid
      = (.ok 201 item, db2, queue ++ [pushEventForMessage db item uid]) ∧
    ((pushEventForMessage db item uid).type = "NEW_QUESTION"
      ↔ item.messageType = "question") ∧
    ((pushEventForMessage db item uid).type = "NEW_ANSWER"
      ↔ item.messageType ≠ "question") ∧
    (pushEventForMessage db item uid).actorUserId = uid ∧
    (pushEventForMessage db item uid).circleId = item.familyId := by
  refine ⟨?_, ?_, ?_, ?_, ?_⟩
  · simp [handleCreateMessageWithPush, h]
  · by_cases hq : item.messageType = "question" <;> simp [pushEventForMessage, hq]
  · by_cases hq : item.messageType = "question" <;> simp [pushEventForMessage, hq]
  · by_cases hq : item.messageType = "question" <;> simp [pushEventForMessage, hq]
  · by_cases hq : item.messageType = "question" <;> simp [pushEventForMessage, hq]

/-- C5 witness at a concrete input: u1 posts the question `pW`; the queue
gains one NEW_QUESTION event. -/
theorem claim_C5_push_event_emitted_witness :
    handleCreateMessageWithPush dbW [] (some "u1") "Alice" (some (some pW)) 5 "msg_x"
      = (.ok 201 itemW, dbW2, [] ++ [pushEventForMessage dbW itemW "u1"]) ∧
    ((pushEventForMessage dbW itemW "u1").type = "NEW_QUESTION"
      ↔ itemW.messageType = "question") ∧
    ((pushEventForMessage dbW itemW "u1").type = "NEW_ANSWER"
      ↔ itemW.messageType ≠ "question") ∧
    (pushEventForMessage dbW itemW "u1").actorUserId = "u1" ∧
    (pushEventForMessage dbW itemW "u1").circleId = itemW.familyId :=
  claim_C5_push_event_emitted dbW [] "u1" "Alice" (some (some pW)) 5 "msg_x" itemW dbW2
    (by decide)

/-- C6 counterexample to the claim as stated: the list-messages route does
not bound the limit by any configured maximum — with 25 messages stored in
c1, a member's request with limit 25 receives 25 items, exceeding the
default of 20, the only configured value the route has. -/
theorem claim_C6_counterexample :
    20 < okLength (handleListMessages dbMsgs25 (some "u1")
      { familyId := some "c1", limit := some 25 }) := by
  decide

/-- C6 (amended): a member's list-messages request answers 200 with the
partition query truncated to the requested limit (default 20, not clamped
to any maximum): the result is sorted newest first, has `min limit count`
items drawn from the circle's messages, and every returned message is at
least as recent as every message of the circle left out. -/
theorem claim_C6_list_messages_descending (db : DB) (uid : String) (qs : ListQS)
    (hmem : qsFamilyId qs ∈ getUserMembershipCircleIds db uid) :
    handleListMessages db (some uid) qs
      = .ok 200 (queryMessagesDesc db (qsFamilyId qs) (qs.limit.getD 20)) ∧
    ∀ (fid : String) (limit : Nat),
      List.Sorted newerFirst (queryMessagesDesc db fid limit) ∧
      (queryMessagesDesc db fid limit).length
        = min limit (db.messages.filter (fun m => m.familyId = fid)).length ∧
      (∀ x ∈ queryMessagesDesc db fid limit,
        x ∈ db.messages.filter (fun m => m.familyId = fid)) ∧
      (∀ x ∈ queryMessagesDesc db fid limit,
        ∀ y ∈ db.messages.filter (fun m => m.familyId = fid),
          y ∉ queryMessagesDesc db fid limit → y.createdAt ≤ x.createdAt) := by
  constructor
  · simp only [handleListMessages]
    rw [if_pos hmem]
  · intro fid limit
    refine ⟨?_, ?_, ?_, ?_⟩
    · exact List.Pairwise.sublist (List.take_sublist _ _)
        (List.sorted_insertionSort newerFirst _)
    · rw [queryMessagesDesc, List.length_take,
        (List.perm_insertionSort newerFirst _).length_eq]
    · intro x hx
      have := List.mem_of_mem_take hx
      rwa [List.mem_insertionSort] at this
    · intro x hx y hy hyn
      have hys : y ∈ (db.messages.filter (fun m => m.familyId = fid)).insertionSort
          newerFirst := (List.mem_insertionSort _).mpr hy
      have hsplit := List.take_append_drop limit
        ((db.messages.filter (fun m => m.familyId = fid)).insertionSort newerFirst)
      have hyd : y ∈ ((db.messages.filter (fun m => m.familyId = fid)).insertionSort
          newerFirst).drop limit := by
        rcases (List.mem_append.mp (hsplit ▸ hys)) with hTake | hDrop
        · exact absurd hTake hyn
        · exact hDrop
      exact (List.sorted_insertionSort newerFirst _).rel_of_mem_take_of_mem_drop hx hyd

/-- C6 witness at a concrete input: u1 lists circle c1 of the 25-message
fixture. -/
theorem claim_C6_list_messages_descending_witness :
    (handleListMessages dbMsgs25 (some "u1") { familyId := some "c1", limit := some 3 }
      = .ok 200 (queryMessagesDesc dbMsgs25 "c1" 3)) ∧
    List.Sorted newerFirst (queryMessagesDesc dbMsgs25 "c1" 3) ∧
    (queryMessagesDesc dbMsgs25 "c1" 3).length
      = min 3 (dbMsgs25.messages.filter (fun m => m.familyId = "c1")).length := by
  obtain ⟨h1, h2⟩ := claim_C6_list_messages_descending dbMsgs25 "u1"
    { familyId := some "c1", limit := some 3 } (by decide)
  obtain ⟨hs, hl, -, -⟩ := h2 "c1" 3
  exact ⟨h1, hs, hl⟩

-- Helper lemmas for prompt extraction and deduplication

theorem extractPrompts_mem_ne_empty (parsed : Option ParsedText) (tb : String)
    (s : String) (hs : s ∈ extractPrompts parsed tb) : s ≠ "" := by
  unfold extractPrompts at hs
  match parsed with
  | some (.arr vs) => simpa using (List.mem_filter.mp hs).2
  | some .notArr => simp at hs
  | none => simpa using (List.mem_filter.mp hs).2

theorem clampPromptCount_bounds (c : Option Int) :
    1 ≤ clampPromptCount c ∧ clampPromptCount c ≤ 8 := by
  cases c with
  | none => simp [clampPromptCount]
  | some n =>
    by_cases h0 : n = 0 <;> simp [clampPromptCount, h0] <;> omega

/-- C8: the effective prompt count is clamped into [1, 8] with default 4
(also when the client sends the falsy 0), and a successful response holds
between 1 and that count non-empty strings, whether they came from the
JSON-array parse or from the newline-splitting fallback. -/
theorem claim_C8_prompt_count_clamped (db : DB) (uid : String)
    (payload : PromptsPayload) (bedrock : BedrockOutcome) (l : List String)
    (h : handleGeneratePrompts db (some uid) payload bedrock = .ok 200 l) :
    1 ≤ clampPromptCount payload.count ∧ clampPromptCount payload.count ≤ 8 ∧
    clampPromptCount none = 4 ∧ clampPromptCount (some 0) = 4 ∧
    1 ≤ l.length ∧ l.length ≤ (clampPromptCount payload.count).toNat ∧
    ∀ s ∈ l, s ≠ "" := by
  obtain ⟨hlo, hhi⟩ := clampPromptCount_bounds payload.count
  refine ⟨hlo, hhi, rfl, rfl, ?_, ?_, ?_⟩ <;>
    · simp only [handleGeneratePrompts] at h
      split at h
      · exact absurd h (by simp)
      · cases bedrock with
        | invokeError m => exact absurd h (by simp)
        | badResponseJson => exact absurd h (by simp)
        | emptyText => exact absurd h (by simp)
        | content tb parsed =>
          simp only [] at h
          split at h
          · exact absurd h (by simp)
          · split at h
            · exact absurd h (by simp)
            · rename_i hempty
              rw [ApiResult.ok.injEq] at h
              obtain ⟨-, hl⟩ := h
              subst hl
              first
                | -- 1 ≤ length of the truncation
                  (rename_i htb
                   have hne : extractPrompts parsed tb ≠ [] := by
                     simpa [List.isEmpty_iff] using hempty
                   have hpos : 0 < (extractPrompts parsed tb).length :=
                     List.length_pos.mpr hne
                   have h1 : 1 ≤ (clampPromptCount payload.count).toNat := by omega
                   simp only [List.length_take]
                   omega)
                | -- length ≤ count
                  (simp only [List.length_take]; omega)
                | -- members are non-empty
                  (intro s hsl
                   exact extractPrompts_mem_ne_empty parsed tb s (List.mem_of_mem_take hsl))

/-- C8 witness at a concrete input: count 9 clamps to 8; a two-element JSON
array yields two prompts. -/
theorem claim_C8_prompt_count_clamped_witness :
    1 ≤ clampPromptCount (some 9) ∧ clampPromptCount (some 9) ≤ 8 ∧
    clampPromptCount none = 4 ∧ clampPromptCount (some 0) = 4 ∧
    1 ≤ (["a", "b"] : List String).length ∧
    (["a", "b"] : List String).length ≤ (clampPromptCount (some 9)).toNat ∧
    ∀ s ∈ (["a", "b"] : List String), s ≠ "" :=
  claim_C8_prompt_count_clamped dbW "u1"
    { familyId := none, circleId := none, count := some 9 }
    (.content "x" (some (.arr [.jstr "a", .jstr "b"]))) ["a", "b"] (by decide)

-- Deduplication lemmas for the fan-out worker

end Circles
